import Mathlib

/-!
Verification of the forensic logging / request-observability pipeline of the
`core-python-template` repository: sensitive-data masking
(`logging/formatters.py`), correlation context (`logging/context.py`),
security audit events (`logging/audit.py`) and the request logging
middleware (`logging/middleware.py`).

The Python code is shallowly embedded: regex substitution is modelled by a
small backtracking engine faithful to Python `re` semantics restricted to
the constructs the masking patterns use (character classes, greedy and lazy
quantifiers, capture groups, word boundaries, leftmost non-overlapping
substitution); ambient state (contextvars, wall-clock time, uuid generation)
is passed explicitly.
-/

set_option autoImplicit false

namespace ProjectNameLogging

/-! ## Regex engine

A backtracking matcher for the subset of Python `re` used by
`MaskingFilter.PATTERNS`.  Characters are handled as ASCII (every input in
the theorems below is ASCII; Python's Unicode-aware `\d`, `\s`, `\b`
coincide with the ASCII reading there). -/

/-- Python `\w` (ASCII reading): letters, digits, underscore. -/
def isWordChar (c : Char) : Bool :=
  c.isAlpha || c.isDigit || c == '_'

/-- Python `\s` (ASCII reading): space, tab, newline, CR, VT, FF. -/
def isSpaceChar (c : Char) : Bool :=
  c == ' ' || c == '\t' || c == '\n' || c == '\r' || c == '\x0b' || c == '\x0c'

/-- Regular-expression abstract syntax: the constructs appearing in
`MaskingFilter.PATTERNS`. `star` is greedy `*`, `lazyStar` is `*?`,
`wordB` is `\b`, `group i` is the `i`-th capturing group. -/
inductive RE where
  | eps : RE
  | cls : (Char → Bool) → RE
  | seq : RE → RE → RE
  | alt : RE → RE → RE
  | star : RE → RE
  | lazyStar : RE → RE
  | group : Nat → RE → RE
  | wordB : RE

/-- Captured groups: group index paired with captured characters. -/
abbrev Caps := List (Nat × List Char)

/-- Backtracking matcher in continuation-passing style, mirroring the
preference order of Python's engine: `alt` prefers its left branch, `star`
prefers one more iteration, `lazyStar` prefers zero iterations.  `prev` is
the character preceding the current position (for `\b`).  `fuel` bounds the
recursion depth; it is chosen large enough in `matchHere` that it is never
exhausted on the inputs considered. -/
def reMatch (fuel : Nat) (re : RE) (prev : Option Char) (s : List Char)
    (caps : Caps)
    (k : Option Char → List Char → Caps → Option (List Char × Caps)) :
    Option (List Char × Caps) :=
  match fuel with
  | 0 => none
  | fuel + 1 =>
    match re with
    | .eps => k prev s caps
    | .cls p =>
      match s with
      | [] => none
      | c :: rest => if p c then k (some c) rest caps else none
    | .seq a b =>
      reMatch fuel a prev s caps (fun p2 s2 c2 => reMatch fuel b p2 s2 c2 k)
    | .alt a b =>
      match reMatch fuel a prev s caps k with
      | some r => some r
      | none => reMatch fuel b prev s caps k
    | .star a =>
      match reMatch fuel a prev s caps
          (fun p2 s2 c2 => reMatch fuel (RE.star a) p2 s2 c2 k) with
      | some r => some r
      | none => k prev s caps
    | .lazyStar a =>
      match k prev s caps with
      | some r => some r
      | none =>
        reMatch fuel a prev s caps
          (fun p2 s2 c2 => reMatch fuel (RE.lazyStar a) p2 s2 c2 k)
    | .group i a =>
      reMatch fuel a prev s caps (fun p2 s2 c2 =>
        k p2 s2 ((i, s.take (s.length - s2.length)) :: c2))
    | .wordB =>
      let left := match prev with | some c => isWordChar c | none => false
      let right := match s with | c :: _ => isWordChar c | [] => false
      if left == right then none else k prev s caps

/-- Try to match `re` at the start of `s`; on success return
(matched prefix, remainder, captures). -/
def matchHere (re : RE) (prev : Option Char) (s : List Char) :
    Option (List Char × List Char × Caps) :=
  match reMatch (8 * s.length + 300) re prev s [] (fun _ s2 c2 => some (s2, c2)) with
  | none => none
  | some (rest, caps) => some (s.take (s.length - rest.length), rest, caps)

/-- A replacement template: literal pieces and `\i` group references. -/
inductive TmplItem where
  | lit : List Char → TmplItem
  | ref : Nat → TmplItem

/-- Instantiate a replacement template with the captures of a match. -/
def applyTmpl (tmpl : List TmplItem) (caps : Caps) : List Char :=
  tmpl.foldr
    (fun item acc =>
      match item with
      | .lit l => l ++ acc
      | .ref i => (match caps.lookup i with | some v => v | none => []) ++ acc)
    []

/-- One pass of `re.sub`: scan left to right, replace each leftmost
non-overlapping match, leave other characters unchanged.  `prev` tracks the
previous character of the original text for `\b`. -/
def subFrom (fuel : Nat) (re : RE) (tmpl : List TmplItem) (prev : Option Char)
    (s : List Char) : List Char :=
  match fuel with
  | 0 => s
  | fuel + 1 =>
    match matchHere re prev s with
    | some (matched, rest, caps) =>
      applyTmpl tmpl caps ++
        subFrom fuel re tmpl
          (match matched.getLast? with | some c => some c | none => prev) rest
    | none =>
      match s with
      | [] => []
      | c :: rest => c :: subFrom fuel re tmpl (some c) rest

/-- Python `re.sub(re, tmpl, s)` for the pattern subset above. -/
def reSub (re : RE) (tmpl : List TmplItem) (s : List Char) : List Char :=
  subFrom (s.length + 1) re tmpl none s

/-! ### Pattern-building helpers -/

/-- Literal string. -/
def litStr (s : String) : RE :=
  s.data.foldr (fun c r => RE.seq (RE.cls (fun x => x == c)) r) RE.eps

/-- Literal string under `re.IGNORECASE`. -/
def litStrCI (s : String) : RE :=
  s.data.foldr (fun c r => RE.seq (RE.cls (fun x => x.toLower == c.toLower)) r) RE.eps

/-- Single literal character. -/
def chr (c : Char) : RE := RE.cls (fun x => x == c)

/-- Greedy `+`. -/
def rePlus (r : RE) : RE := RE.seq r (RE.star r)

/-- Greedy `?`. -/
def reOpt (r : RE) : RE := RE.alt r RE.eps

/-- Repetition `\x7bn\x7d`: exactly `n` copies. -/
def repExact : Nat → RE → RE
  | 0, _ => RE.eps
  | n + 1, r => RE.seq r (repExact n r)

/-- Sequence of a list of regexes. -/
def seqAll (l : List RE) : RE := l.foldr RE.seq RE.eps

/-- Class `["']?`. -/
def optQuote : RE := reOpt (RE.cls (fun c => c == '"' || c == '\''))

/-- Class `\s*`. -/
def wsStar : RE := RE.star (RE.cls isSpaceChar)

/-- Class `[:=]`. -/
def colonEq : RE := RE.cls (fun c => c == ':' || c == '=')

/-- Class `\d`. -/
def digitCh : RE := RE.cls Char.isDigit

/-- Class `[- ]?`. -/
def optSep : RE := reOpt (RE.cls (fun c => c == '-' || c == ' '))

/-! ### The masking pattern catalog

Transcription of `MaskingFilter.PATTERNS` (formatters.py), in source
order, each with its replacement template. -/

/-- Pattern `(://[^:]+:)[^@]+(@)` → `\1****\2`  (passwords in URLs). -/
def patUrlCred : RE × List TmplItem :=
  (seqAll
    [RE.group 1 (seqAll
      [litStr "://", rePlus (RE.cls (fun c => !(c == ':'))), chr ':']),
     rePlus (RE.cls (fun c => !(c == '@'))),
     RE.group 2 (chr '@')],
   [.ref 1, .lit "****".data, .ref 2])

/-- Value class `[a-zA-Z0-9_-]+`. -/
def keyValCls : RE :=
  rePlus (RE.cls (fun c => c.isAlpha || c.isDigit || c == '_' || c == '-'))

/-- Value class `[a-zA-Z0-9_.-]+`. -/
def tokValCls : RE :=
  rePlus (RE.cls (fun c => c.isAlpha || c.isDigit || c == '_' || c == '.' || c == '-'))

/-- Pattern `(api[_-]?key["']?\s*[:=]\s*["']?)[a-zA-Z0-9_-]+` → `\1****`. -/
def patApiKey : RE × List TmplItem :=
  (seqAll
    [RE.group 1 (seqAll
      [litStr "api", reOpt (RE.cls (fun c => c == '_' || c == '-')), litStr "key",
       optQuote, wsStar, colonEq, wsStar, optQuote]),
     keyValCls],
   [.ref 1, .lit "****".data])

/-- Pattern `(token["']?\s*[:=]\s*["']?)[a-zA-Z0-9_.-]+` → `\1****`. -/
def patToken : RE × List TmplItem :=
  (seqAll
    [RE.group 1 (seqAll [litStr "token", optQuote, wsStar, colonEq, wsStar, optQuote]),
     tokValCls],
   [.ref 1, .lit "****".data])

/-- Pattern `(bearer\s+)[a-zA-Z0-9_.-]+` with `re.IGNORECASE` → `\1****`. -/
def patBearer : RE × List TmplItem :=
  (seqAll
    [RE.group 1 (seqAll [litStrCI "bearer", rePlus (RE.cls isSpaceChar)]),
     tokValCls],
   [.ref 1, .lit "****".data])

/-- Pattern `(authorization["']?\s*[:=]\s*["']?)[^\s"']+` → `\1****`. -/
def patAuthorization : RE × List TmplItem :=
  (seqAll
    [RE.group 1 (seqAll
      [litStr "authorization", optQuote, wsStar, colonEq, wsStar, optQuote]),
     rePlus (RE.cls (fun c => !(isSpaceChar c || c == '"' || c == '\'')))],
   [.ref 1, .lit "****".data])

/-- Pattern `(secret[_-]?key["']?\s*[:=]\s*["']?)[a-zA-Z0-9_-]+` → `\1****`. -/
def patSecretKey : RE × List TmplItem :=
  (seqAll
    [RE.group 1 (seqAll
      [litStr "secret", reOpt (RE.cls (fun c => c == '_' || c == '-')), litStr "key",
       optQuote, wsStar, colonEq, wsStar, optQuote]),
     keyValCls],
   [.ref 1, .lit "****".data])

/-- Pattern `(password["']?\s*[:=]\s*["']?)[^"',\s}]+` → `\1****`. -/
def patPassword : RE × List TmplItem :=
  (seqAll
    [RE.group 1 (seqAll [litStr "password", optQuote, wsStar, colonEq, wsStar, optQuote]),
     rePlus (RE.cls (fun c =>
       !(c == '"' || c == '\'' || c == ',' || isSpaceChar c || c == '\x7d')))],
   [.ref 1, .lit "****".data])

/-- Pattern `\b(\d{4}[- ]?\d{4}[- ]?\d{4}[- ]?)\d{4}\b` → `\1****` (credit cards). -/
def patCreditCard : RE × List TmplItem :=
  (seqAll
    [RE.wordB,
     RE.group 1 (seqAll
       [repExact 4 digitCh, optSep, repExact 4 digitCh, optSep,
        repExact 4 digitCh, optSep]),
     repExact 4 digitCh, RE.wordB],
   [.ref 1, .lit "****".data])

/-- Pattern `\b(\d{3})-(\d{2})-\d{4}\b` → `\1-\2-****` (SSN). -/
def patSsn : RE × List TmplItem :=
  (seqAll
    [RE.wordB, RE.group 1 (repExact 3 digitCh), chr '-',
     RE.group 2 (repExact 2 digitCh), chr '-', repExact 4 digitCh, RE.wordB],
   [.ref 1, .lit "-".data, .ref 2, .lit "-****".data])

/-- Pattern `([a-zA-Z0-9._%+-]+)@([a-zA-Z0-9.-]+\.[a-zA-Z]{2,})` → `***@\2` (emails). -/
def patEmail : RE × List TmplItem :=
  (seqAll
    [RE.group 1 (rePlus (RE.cls (fun c =>
       c.isAlpha || c.isDigit || c == '.' || c == '_' || c == '%' || c == '+' || c == '-'))),
     chr '@',
     RE.group 2 (seqAll
       [rePlus (RE.cls (fun c => c.isAlpha || c.isDigit || c == '.' || c == '-')),
        chr '.',
        RE.cls Char.isAlpha, RE.cls Char.isAlpha, RE.star (RE.cls Char.isAlpha)])],
   [.lit "***@".data, .ref 2])

/-- Pattern `(AKIA)[A-Z0-9]{16}` → `\1****************` (AWS keys). -/
def patAwsKey : RE × List TmplItem :=
  (seqAll
    [RE.group 1 (litStr "AKIA"),
     repExact 16 (RE.cls (fun c => c.isUpper || c.isDigit))],
   [.ref 1, .lit "****************".data])

/-- Pattern `-----BEGIN [A-Z ]+ PRIVATE KEY-----.*?-----END [A-Z ]+ PRIVATE KEY-----`
with `re.DOTALL` → `[REDACTED PRIVATE KEY]`. -/
def patPrivateKey : RE × List TmplItem :=
  (seqAll
    [litStr "-----BEGIN ", rePlus (RE.cls (fun c => c.isUpper || c == ' ')),
     litStr " PRIVATE KEY-----",
     RE.lazyStar (RE.cls (fun _ => true)),
     litStr "-----END ", rePlus (RE.cls (fun c => c.isUpper || c == ' ')),
     litStr " PRIVATE KEY-----"],
   [.lit "[REDACTED PRIVATE KEY]".data])

/-- The ordered rule list `MaskingFilter.PATTERNS` from formatters.py. -/
def PATTERNS : List (RE × List TmplItem) :=
  [patUrlCred, patApiKey, patToken, patBearer, patAuthorization,
   patSecretKey, patPassword, patCreditCard, patSsn, patEmail,
   patAwsKey, patPrivateKey]

/-- Function `MaskingFilter._mask_sensitive_data`: apply every pattern in order,
each to the output of the previous one. -/
def mask_sensitive_data (text : String) : String :=
  String.mk (PATTERNS.foldl (fun t pr => reSub pr.1 pr.2 t) text.data)

end ProjectNameLogging

namespace ProjectNameLogging

/-! ## Correlation context (logging/context.py)

The two `ContextVar`s `_correlation_id` and `_request_context` are embedded
as an explicit state record threaded through the operations.  Request
context values are strings (the claims never inspect a non-string value).
`uuid4()` and `datetime.now(UTC).isoformat()` are passed in as explicit
`fresh` / `now` arguments. -/

/-- The contents of the two context variables of context.py. -/
structure CtxState where
  correlation_id : Option String
  request_context : Option (List (String × String))
deriving DecidableEq, Repr

/-- Python truthiness of an optional string: `None` and `""` are falsy. -/
def truthyStr : Option String → Bool
  | none => false
  | some s => !(s == "")

/-- Python `a or b` for an optional string `a` and a string default `b`. -/
def orDefault (a : Option String) (b : String) : String :=
  match a with
  | some s => if s == "" then b else s
  | none => b

/-- Accessor `get_correlation_id`. -/
def get_correlation_id (st : CtxState) : Option String :=
  st.correlation_id

/-- Setter `set_correlation_id`: store the given id, or the freshly
generated uuid when the argument is `None` (or falsy). -/
def set_correlation_id (correlation_id : Option String) (fresh : String)
    (st : CtxState) : String × CtxState :=
  let cid := orDefault correlation_id fresh
  (cid, { st with correlation_id := some cid })

/-- Setter `clear_correlation_id`. -/
def clear_correlation_id (st : CtxState) : CtxState :=
  { st with correlation_id := none }

/-- Accessor `get_request_context`. -/
def get_request_context (st : CtxState) : Option (List (String × String)) :=
  st.request_context

/-- Setter `set_request_context`. -/
def set_request_context (context : List (String × String)) (st : CtxState) :
    CtxState :=
  { st with request_context := some context }

/-- Setter `clear_request_context`. -/
def clear_request_context (st : CtxState) : CtxState :=
  { st with request_context := none }

/-- Python `dict` assignment `d[k] = v`: overwrite in place if the key
exists, otherwise append. -/
def dictSet (d : List (String × String)) (k v : String) :
    List (String × String) :=
  if (d.lookup k).isSome then
    d.map (fun kv => if kv.1 == k then (k, v) else kv)
  else d ++ [(k, v)]

/-- Python `d.update(u)`: last-write-wins merge, insertion order kept. -/
def dictUpdate (d u : List (String × String)) : List (String × String) :=
  u.foldl (fun acc kv => dictSet acc kv.1 kv.2) d

/-- The `LogContext` dataclass fields (the `_token_cid` / `_token_ctx`
restore tokens are saved by `__enter__` but never read, so they are not
part of the state model). -/
structure LogContext where
  correlation_id : Option String := none
  user_id : Option String := none
  session_id : Option String := none
  ip_address : Option String := none
  user_agent : Option String := none
  method : Option String := none
  path : Option String := none
  extra : List (String × String) := []

/-- Append `(k, v)` to the context dict when the field is truthy, as the
`if self.user_id: context["user_id"] = ...` lines do. -/
def appendIfTruthy (ctx : List (String × String)) (k : String)
    (v : Option String) : List (String × String) :=
  match v with
  | some s => if s == "" then ctx else ctx ++ [(k, s)]
  | none => ctx

/-- The request-context dict built by `LogContext.__enter__`: a fresh
timestamp, the truthy optional fields, then `extra` merged last-write-wins. -/
def LogContext.buildContext (lc : LogContext) (now : String) :
    List (String × String) :=
  let context := [("timestamp", now)]
  let context := appendIfTruthy context "user_id" lc.user_id
  let context := appendIfTruthy context "session_id" lc.session_id
  let context := appendIfTruthy context "ip_address" lc.ip_address
  let context := appendIfTruthy context "user_agent" lc.user_agent
  let context := appendIfTruthy context "method" lc.method
  let context := appendIfTruthy context "path" lc.path
  if lc.extra.isEmpty then context else dictUpdate context lc.extra

/-- `LogContext.__enter__`: set the correlation id (given or fresh uuid)
and the request-context snapshot. -/
def LogContext.enter (lc : LogContext) (fresh now : String) (st : CtxState) :
    CtxState :=
  let st := { st with correlation_id := some (orDefault lc.correlation_id fresh) }
  { st with request_context := some (lc.buildContext now) }

/-- `LogContext.__exit__`: unconditionally reset both context variables to
`None`; the saved restore tokens are not consulted. -/
def LogContext.exitCtx (_ : CtxState) : CtxState :=
  { correlation_id := none, request_context := none }

/-- The `with LogContext(...):` block: `__enter__`, then the body (which
may finish normally or raise), then `__exit__` on every exit path — Python
runs `__exit__` both when the body returns and when it raises, after which
a raised exception keeps propagating. -/
def runLogContext {ε α : Type} (lc : LogContext) (fresh now : String)
    (st : CtxState) (body : CtxState → CtxState × Except ε α) :
    CtxState × Except ε α :=
  let stIn := lc.enter fresh now st
  let res := body stIn
  (LogContext.exitCtx res.1, res.2)

/-! ## Masking filter (formatters.py `MaskingFilter.filter`)

`record.msg` is modelled as its string rendering and substitution
arguments as their `str(·)` renderings, which is what the filter masks. -/

/-- The `record.args` attribute: absent (`None`), a positional tuple, or a
mapping. -/
inductive RecordArgs where
  | noArgs : RecordArgs
  | tup : List String → RecordArgs
  | dict : List (String × String) → RecordArgs
deriving DecidableEq, Repr

/-- The slice of a `logging.LogRecord` that `MaskingFilter.filter` touches. -/
structure FilterRecord where
  msg : String
  args : RecordArgs
deriving DecidableEq, Repr

/-- `MaskingFilter.filter`: mask the message (when truthy) and every
substitution argument (when args are truthy), and return `True`. -/
def MaskingFilter.filter (record : FilterRecord) : Bool × FilterRecord :=
  let record :=
    if record.msg == "" then record
    else { record with msg := mask_sensitive_data record.msg }
  let record :=
    match record.args with
    | .noArgs => record
    | .tup l =>
      if l.isEmpty then record
      else { record with args := .tup (l.map (fun v => mask_sensitive_data v)) }
    | .dict d =>
      if d.isEmpty then record
      else { record with
        args := .dict (d.map (fun kv => (kv.1, mask_sensitive_data kv.2))) }
  (true, record)

end ProjectNameLogging

namespace ProjectNameLogging

/-! ## JSON formatter (formatters.py `JsonFormatter`) -/

/-- JSON values as built by `JsonFormatter.format` and
`SecurityEvent.to_dict` (the dicts handed to `json.dumps`). -/
inductive JVal where
  | str : String → JVal
  | num : Nat → JVal
  | null : JVal
  | obj : List (String × JVal) → JVal

/-- A Python optional string as a JSON value (`None` serializes to null). -/
def optJ : Option String → JVal
  | some s => .str s
  | none => .null

/-- A string-valued dict as a JSON object. -/
def strDictJ (d : List (String × String)) : List (String × JVal) :=
  d.map (fun kv => (kv.1, JVal.str kv.2))

/-- The Python idiom `if x: d[key] = f(x)` for an optional string `x`
(absent or empty strings add nothing). -/
def optStrEntry (key : String) (o : Option String) (f : String → JVal) :
    List (String × JVal) :=
  match o with
  | some s => if s == "" then [] else [(key, f s)]
  | none => []

/-- The Python idiom `if d2: d[key] = d2` for an optional dict `d2`
(absent or empty dicts add nothing). -/
def optDictEntry (key : String) (o : Option (List (String × String))) :
    List (String × JVal) :=
  match o with
  | some d => if d.isEmpty then [] else [(key, JVal.obj (strDictJ d))]
  | none => []

/-- The Python idiom `if b: d[key] = v` for a boolean guard. -/
def condEntry (b : Bool) (key : String) (v : JVal) : List (String × JVal) :=
  if b then [(key, v)] else []

/-- The Python idiom `if x is not None: d[key] = f(x)`. -/
def optEntry {α : Type} (key : String) (o : Option α) (f : α → JVal) :
    List (String × JVal) :=
  match o with
  | some a => [(key, f a)]
  | none => []

/-- The `record.exc_info` triple `(type, value, traceback)`: the exception
class name (`None` when the type slot is `None`), the `str(value)`
rendering (`None` when the value slot is `None`) and the
`Formatter.formatException` rendering, which is always a string. -/
structure ExcInfo where
  excType : Option String
  excMsg : Option String
  tbText : String
deriving DecidableEq, Repr

/-- The slice of a `logging.LogRecord` that `JsonFormatter.format` reads.
`message` is `record.getMessage()`; `extras` holds the attributes that
survive the standard-attribute deny-list filter of `format`. -/
structure LogRecord where
  name : String
  levelname : String
  pathname : String
  lineno : Nat
  funcName : String
  message : String
  exc_info : Option ExcInfo
  extras : List (String × JVal)

/-- `JsonFormatter.format`: the JSON object serialized by `format` (the
`json.dumps` rendering is not modelled — the claims are about the object's
fields).  Ambient state is explicit: `now` is `datetime.now(UTC)` at format
time, `cid` / `rctx` are the current context-variable values. -/
def JsonFormatter.format (environment now : String) (cid : Option String)
    (rctx : Option (List (String × String))) (record : LogRecord) :
    List (String × JVal) :=
  let log_entry : List (String × JVal) :=
    [("timestamp", .str now),
     ("level", .str record.levelname),
     ("logger", .str record.name),
     ("message", .str record.message),
     ("environment", .str environment)]
  let log_entry := log_entry ++ optStrEntry "correlation_id" cid JVal.str
  let log_entry := log_entry ++ optDictEntry "request" rctx
  let log_entry := log_entry ++
    [("source", .obj
      [("file", .str record.pathname),
       ("line", .num record.lineno),
       ("function", .str record.funcName)])]
  let log_entry := log_entry ++
    optEntry "exception" record.exc_info (fun ei => JVal.obj
      [("type", optJ ei.excType),
       ("message", optJ ei.excMsg),
       ("traceback", JVal.str ei.tbText)])
  let log_entry := log_entry ++
    condEntry (!record.extras.isEmpty) "extra" (JVal.obj record.extras)
  log_entry

/-! ## Audit events (logging/audit.py) -/

/-- The `AuditAction` enum. -/
inductive AuditAction where
  | LOGIN_SUCCESS | LOGIN_FAILURE | LOGOUT | PASSWORD_CHANGE
  | PASSWORD_RESET_REQUEST | PASSWORD_RESET_COMPLETE
  | MFA_ENABLED | MFA_DISABLED | MFA_CHALLENGE
  | TOKEN_ISSUED | TOKEN_REVOKED | TOKEN_REFRESH
  | SESSION_CREATED | SESSION_EXPIRED | SESSION_INVALIDATED
  | ACCESS_GRANTED | ACCESS_DENIED | PERMISSION_CHANGED
  | ROLE_ASSIGNED | ROLE_REMOVED
  | DATA_CREATE | DATA_READ | DATA_UPDATE | DATA_DELETE
  | DATA_EXPORT | DATA_IMPORT
  | USER_CREATE | USER_UPDATE | USER_DELETE | USER_ACTIVATE | USER_DEACTIVATE
  | SECURITY_ALERT | RATE_LIMIT_EXCEEDED | SUSPICIOUS_ACTIVITY
  | BRUTE_FORCE_DETECTED | INVALID_INPUT | INJECTION_ATTEMPT
  | CONFIG_CHANGE | SERVICE_START | SERVICE_STOP | HEALTH_CHECK
  | API_REQUEST | API_RESPONSE | API_ERROR | WEBHOOK_SENT | WEBHOOK_RECEIVED
deriving DecidableEq, Repr

/-- The string value of each `AuditAction` member. -/
def AuditAction.value : AuditAction → String
  | .LOGIN_SUCCESS => "auth.login.success"
  | .LOGIN_FAILURE => "auth.login.failure"
  | .LOGOUT => "auth.logout"
  | .PASSWORD_CHANGE => "auth.password.change"
  | .PASSWORD_RESET_REQUEST => "auth.password.reset_request"
  | .PASSWORD_RESET_COMPLETE => "auth.password.reset_complete"
  | .MFA_ENABLED => "auth.mfa.enabled"
  | .MFA_DISABLED => "auth.mfa.disabled"
  | .MFA_CHALLENGE => "auth.mfa.challenge"
  | .TOKEN_ISSUED => "auth.token.issued"
  | .TOKEN_REVOKED => "auth.token.revoked"
  | .TOKEN_REFRESH => "auth.token.refresh"
  | .SESSION_CREATED => "auth.session.created"
  | .SESSION_EXPIRED => "auth.session.expired"
  | .SESSION_INVALIDATED => "auth.session.invalidated"
  | .ACCESS_GRANTED => "authz.access.granted"
  | .ACCESS_DENIED => "authz.access.denied"
  | .PERMISSION_CHANGED => "authz.permission.changed"
  | .ROLE_ASSIGNED => "authz.role.assigned"
  | .ROLE_REMOVED => "authz.role.removed"
  | .DATA_CREATE => "data.create"
  | .DATA_READ => "data.read"
  | .DATA_UPDATE => "data.update"
  | .DATA_DELETE => "data.delete"
  | .DATA_EXPORT => "data.export"
  | .DATA_IMPORT => "data.import"
  | .USER_CREATE => "user.create"
  | .USER_UPDATE => "user.update"
  | .USER_DELETE => "user.delete"
  | .USER_ACTIVATE => "user.activate"
  | .USER_DEACTIVATE => "user.deactivate"
  | .SECURITY_ALERT => "security.alert"
  | .RATE_LIMIT_EXCEEDED => "security.rate_limit"
  | .SUSPICIOUS_ACTIVITY => "security.suspicious"
  | .BRUTE_FORCE_DETECTED => "security.brute_force"
  | .INVALID_INPUT => "security.invalid_input"
  | .INJECTION_ATTEMPT => "security.injection"
  | .CONFIG_CHANGE => "system.config.change"
  | .SERVICE_START => "system.service.start"
  | .SERVICE_STOP => "system.service.stop"
  | .HEALTH_CHECK => "system.health_check"
  | .API_REQUEST => "api.request"
  | .API_RESPONSE => "api.response"
  | .API_ERROR => "api.error"
  | .WEBHOOK_SENT => "api.webhook.sent"
  | .WEBHOOK_RECEIVED => "api.webhook.received"

/-- The `SecurityEventSeverity` enum. -/
inductive SecurityEventSeverity where
  | DEBUG | INFO | WARNING | ERROR | CRITICAL
deriving DecidableEq, Repr

/-- The string value of each `SecurityEventSeverity` member. -/
def SecurityEventSeverity.value : SecurityEventSeverity → String
  | .DEBUG => "debug"
  | .INFO => "info"
  | .WARNING => "warning"
  | .ERROR => "error"
  | .CRITICAL => "critical"

/-- The `SecurityEvent` dataclass with its field defaults.  `metadata`
values are strings (the claims only involve string-valued metadata). -/
structure SecurityEvent where
  action : AuditAction
  actor_id : Option String := none
  actor_type : String := "user"
  resource_type : Option String := none
  resource_id : Option String := none
  severity : SecurityEventSeverity := .INFO
  outcome : String := "success"
  reason : Option String := none
  ip_address : Option String := none
  user_agent : Option String := none
  details : Option String := none
  metadata : List (String × String) := []
deriving DecidableEq, Repr

/-- `SecurityEvent.to_dict`: the serialized audit record.  `now` is
`datetime.now(UTC)` at the moment `to_dict` is called (the event itself
stores no timestamp); `cid` / `rctx` are the context-variable values at
serialization time. -/
def SecurityEvent.to_dict (ev : SecurityEvent) (now : String)
    (cid : Option String) (rctx : Option (List (String × String))) :
    List (String × JVal) :=
  let event_dict : List (String × JVal) :=
    [("event_type", .str "security_audit"),
     ("timestamp", .str now),
     ("action", .str ev.action.value),
     ("actor", .obj [("id", optJ ev.actor_id), ("type", .str ev.actor_type)]),
     ("severity", .str ev.severity.value),
     ("outcome", .str ev.outcome)]
  let event_dict := event_dict ++ optStrEntry "correlation_id" cid JVal.str
  let event_dict := event_dict ++ optDictEntry "request_context" rctx
  let event_dict := event_dict ++
    condEntry (truthyStr ev.resource_type || truthyStr ev.resource_id) "resource"
      (JVal.obj [("type", optJ ev.resource_type), ("id", optJ ev.resource_id)])
  let event_dict := event_dict ++ optStrEntry "reason" ev.reason JVal.str
  let event_dict := event_dict ++ optStrEntry "ip_address" ev.ip_address JVal.str
  let event_dict := event_dict ++ optStrEntry "user_agent" ev.user_agent JVal.str
  let event_dict := event_dict ++ optStrEntry "details" ev.details JVal.str
  let event_dict := event_dict ++
    condEntry (!ev.metadata.isEmpty) "metadata" (JVal.obj (strDictJ ev.metadata))
  event_dict

end ProjectNameLogging

namespace ProjectNameLogging

/-! ## Request logging middleware (logging/middleware.py)

Ambient effects are explicit: `fresh` stands for `uuid.uuid4()`, `now` for
the `LogContext` timestamp, `dur_ms` for the rounded wall-clock duration
`round((time.perf_counter() - start_time) * 1000, 2)`.  The downstream
`call_next` is a function from the request to either a response or a
raised exception. -/

/-- A raised Python exception: its class name (`type(exc).__name__`) and
its `str(exc)` rendering. -/
structure Exc where
  tyName : String
  msg : String
deriving DecidableEq, Repr

/-- The slice of a Starlette request the middleware reads.  Header keys
are stored lowercased (the Starlette invariant; lookups are
case-insensitive).  `client` is the transport peer host if any;
`state_user` is `request.state.user` when present and truthy, carrying its
`id` attribute; `raw_body` is the decoded request body, `none` when
reading/decoding raised (the error is swallowed). -/
structure Request where
  method : String
  path : String
  query : String
  headers : List (String × String)
  client : Option String
  state_user : Option (Option String)
  raw_body : Option String

/-- A Starlette response: status code and headers. -/
structure HttpResponse where
  status : Nat
  headers : List (String × String)
deriving DecidableEq, Repr

/-- ASCII `str.lower` on one character (header names are ASCII;
`Char.toLower` / `String.toLower` do not reduce in the kernel). -/
def lowerChar (c : Char) : Char :=
  if 'A' ≤ c && c ≤ 'Z' then Char.ofNat (c.toNat + 32) else c

/-- ASCII `str.lower`. -/
def lowerStr (s : String) : String :=
  String.mk (s.data.map lowerChar)

/-- Python `s.startswith(pre)`: prefix test on the character list
(`String.startsWith` itself does not reduce in the kernel). -/
def startswith (s pre : String) : Bool :=
  pre.data.isPrefixOf s.data

/-- Case-insensitive header lookup (`request.headers.get(name)`). -/
def headerGet (hs : List (String × String)) (name : String) : Option String :=
  (hs.find? (fun kv => lowerStr kv.1 == lowerStr name)).map (fun kv => kv.2)

/-- Starlette `response.headers[name] = value`: replace any existing value
for the (case-insensitive) key, appending the new entry. -/
def setHeader (hs : List (String × String)) (name value : String) :
    List (String × String) :=
  hs.filter (fun kv => !(lowerStr kv.1 == lowerStr name)) ++ [(name, value)]

/-- Python log levels used by the middleware. -/
inductive LogLevel where
  | info | warning | error
deriving DecidableEq, Repr

/-- An emitted application log record: level, message, structured `extra`
dict, and whether exception info is attached (`logger.exception`). -/
structure AppLog where
  level : LogLevel
  message : String
  extra : List (String × JVal)
  has_exc_info : Bool

/-- The middleware configuration (`RequestLoggingMiddleware.__init__`
keyword arguments with their defaults; `exclude_paths=None` yields the
default list). -/
structure RequestLoggingMiddleware where
  exclude_paths : List String := ["/health", "/metrics", "/favicon.ico"]
  log_request_body : Bool := false
  log_response_body : Bool := false
  max_body_length : Nat := 1000

namespace RequestLoggingMiddleware

/-- `_get_correlation_id`: inbound `X-Correlation-ID` if truthy, else
`X-Request-ID` if truthy, else a fresh `uuid4()`. -/
def get_correlation_id (req : Request) (fresh : String) : String :=
  let c1 := headerGet req.headers "X-Correlation-ID"
  if truthyStr c1 then c1.getD ""
  else
    let c2 := headerGet req.headers "X-Request-ID"
    if truthyStr c2 then c2.getD "" else fresh

/-- `_get_client_ip`: first entry of `X-Forwarded-For` (stripped), else
`X-Real-IP`, else the transport peer, else `"unknown"`. -/
def get_client_ip (req : Request) : String :=
  let fwd := headerGet req.headers "X-Forwarded-For"
  if truthyStr fwd then (((fwd.getD "").splitOn ",").headD "").trim
  else
    let rip := headerGet req.headers "X-Real-IP"
    if truthyStr rip then rip.getD ""
    else
      match req.client with
      | some host => host
      | none => "unknown"

/-- `_get_user_id`: the id of an authenticated principal on the request
state if present, else the `X-User-ID` header, else `None`. -/
def get_user_id (req : Request) : Option String :=
  match req.state_user with
  | some uid => uid
  | none => headerGet req.headers "X-User-ID"

/-- The header deny-list of `_safe_headers`. -/
def sensitive_headers : List String :=
  ["authorization", "cookie", "x-api-key", "x-auth-token", "x-csrf-token"]

/-- `_safe_headers`: replace the value of every deny-listed header with
the fixed redaction marker. -/
def safe_headers (hs : List (String × String)) : List (String × String) :=
  hs.map (fun kv =>
    if sensitive_headers.contains (lowerStr kv.1) then (kv.1, "[REDACTED]") else kv)

/-- `_get_request_body`: `None` for an unreadable or empty body, the body
truncated with a marker past `max_body_length`, else the body itself. -/
def get_request_body (mw : RequestLoggingMiddleware) (raw : Option String) :
    Option String :=
  match raw with
  | none => none
  | some b =>
    if b == "" then none
    else if mw.max_body_length < b.length then
      some (b.take mw.max_body_length ++ "...[truncated]")
    else some b

/-- The `request_log` dict assembled by `dispatch` before calling
downstream. -/
def request_log (mw : RequestLoggingMiddleware) (req : Request)
    (correlation_id client_ip user_agent : String) (user_id : Option String) :
    List (String × JVal) :=
  [("method", .str req.method),
   ("path", .str req.path),
   ("query", if req.query == "" then JVal.null else JVal.str req.query),
   ("ip_address", .str client_ip),
   ("user_agent", .str user_agent),
   ("user_id", optJ user_id),
   ("correlation_id", .str correlation_id),
   ("headers", .obj (strDictJ (safe_headers req.headers)))] ++
  (if mw.log_request_body &&
      (req.method == "POST" || req.method == "PUT" || req.method == "PATCH") then
    [("body", optJ (get_request_body mw req.raw_body))]
   else [])

/-- The `response_log` dict assembled by `dispatch` after downstream
completes. -/
def response_log (req : Request) (response : HttpResponse) (dur_ms : Nat)
    (client_ip : String) (user_id : Option String) (correlation_id : String) :
    List (String × JVal) :=
  [("method", .str req.method),
   ("path", .str req.path),
   ("status_code", .num response.status),
   ("duration_ms", .num dur_ms),
   ("ip_address", .str client_ip),
   ("user_id", optJ user_id),
   ("correlation_id", .str correlation_id)]

/-- `_log_error`: the `logger.exception` record and the audit
`SecurityEvent` emitted when downstream raised. -/
def log_error (req : Request) (exc : Exc) (dur_ms : Nat)
    (client_ip user_agent : String) (user_id : Option String) :
    AppLog × SecurityEvent :=
  (⟨.error, "Request failed with exception",
    [("event_type", .str "http_error"),
     ("error", .obj [("type", .str exc.tyName), ("message", .str exc.msg)]),
     ("request", .obj
       [("method", .str req.method),
        ("path", .str req.path),
        ("ip_address", .str client_ip),
        ("user_agent", .str user_agent),
        ("user_id", optJ user_id),
        ("duration_ms", .num dur_ms)])],
    true⟩,
   { action := .API_ERROR,
     actor_id := user_id,
     ip_address := some client_ip,
     user_agent := some user_agent,
     details := some ("Request error: " ++ exc.tyName ++ ": " ++ exc.msg),
     metadata := [("method", req.method), ("path", req.path),
                  ("error_type", exc.tyName)] })

/-- Everything `dispatch` produces: the application log records in
emission order, the audit events in emission order, the final
context-variable state, and the returned response or re-raised exception. -/
structure DispatchOut where
  logs : List AppLog
  audits : List SecurityEvent
  ctx : CtxState
  result : Except Exc HttpResponse

/-- `RequestLoggingMiddleware.dispatch`.  Excluded paths pass straight
through; otherwise the middleware resolves the request metadata, logs
"Request started", opens a `LogContext` scope around `call_next`, and on
completion either logs the response at a status-dependent level and stamps
the `X-Correlation-ID` response header, or (when downstream raised) emits
the error log plus one audit event and re-raises the same exception. -/
def dispatch (mw : RequestLoggingMiddleware) (req : Request)
    (fresh now : String) (dur_ms : Nat) (st0 : CtxState)
    (call_next : Request → Except Exc HttpResponse) : DispatchOut :=
  if mw.exclude_paths.any (fun p => startswith req.path p) then
    { logs := [], audits := [], ctx := st0, result := call_next req }
  else
    let correlation_id := get_correlation_id req fresh
    let client_ip := get_client_ip req
    let user_agent := (headerGet req.headers "user-agent").getD ""
    let user_id := get_user_id req
    let st1 := (set_correlation_id (some correlation_id) fresh st0).2
    let startRec : AppLog :=
      ⟨.info, "Request started",
       [("request", .obj (request_log mw req correlation_id client_ip user_agent user_id)),
        ("event_type", .str "http_request")],
       false⟩
    let lc : LogContext :=
      { correlation_id := some correlation_id,
        user_id := user_id,
        ip_address := some client_ip,
        user_agent := some user_agent,
        method := some req.method,
        path := some req.path }
    let after := runLogContext lc fresh now st1 (fun stIn => (stIn, call_next req))
    match after.2 with
    | .error exc =>
      let errPair := log_error req exc dur_ms client_ip user_agent user_id
      { logs := [startRec, errPair.1],
        audits := [errPair.2],
        ctx := after.1,
        result := .error exc }
    | .ok response =>
      let resp_log := response_log req response dur_ms client_ip user_id correlation_id
      let doneRec : AppLog :=
        if 500 ≤ response.status then
          ⟨.error, "Request completed with server error",
           [("response", .obj resp_log), ("event_type", .str "http_response")], false⟩
        else if 400 ≤ response.status then
          ⟨.warning, "Request completed with client error",
           [("response", .obj resp_log), ("event_type", .str "http_response")], false⟩
        else
          ⟨.info, "Request completed",
           [("response", .obj resp_log), ("event_type", .str "http_response")], false⟩
      let response2 : HttpResponse :=
        { response with
          headers := setHeader response.headers "X-Correlation-ID" correlation_id }
      { logs := [startRec, doneRec],
        audits := [],
        ctx := after.1,
        result := .ok response2 }

end RequestLoggingMiddleware

end ProjectNameLogging

namespace ProjectNameLogging

/-! ## Claims about the masking filter (C1, C2) -/

/-- C1 (counterexample): masking is NOT idempotent.  On the input
`"1234 5678 9012 34561234"` the credit-card rule masks the 16-digit
group starting at `5678`, producing `"1234 5678 9012 3456****"`; on a
second pass the inserted `****` creates a word boundary after `3456`, the
credit-card rule now matches the first 16 digits, and the output changes
again to `"1234 5678 9012 ********"`.  So `mask (mask s) ≠ mask s`. -/
theorem mask_not_idempotent :
    mask_sensitive_data "1234 5678 9012 34561234" = "1234 5678 9012 3456****" ∧
    mask_sensitive_data (mask_sensitive_data "1234 5678 9012 34561234") =
      "1234 5678 9012 ********" ∧
    mask_sensitive_data (mask_sensitive_data "1234 5678 9012 34561234") ≠
      mask_sensitive_data "1234 5678 9012 34561234" := by
  refine ⟨by decide, by decide, by decide⟩

/-- C1 (amended): the redaction token `****` produced by the rules is not
itself altered by any rule — masking it is a no-op.  (Full idempotence
fails, see the counterexample.) -/
theorem mask_redaction_token_fixed :
    mask_sensitive_data "****" = "****" := by decide

/-- C2 (counterexample): the `api[_-]?key` rule is compiled without
`re.IGNORECASE`, so the upper-case key/value pair `API_KEY=abc123` is NOT
masked — the text passes through unchanged, value included. -/
theorem mask_api_key_not_case_insensitive :
    mask_sensitive_data "API_KEY=abc123" = "API_KEY=abc123" := by decide

/-- C2 (amended): the api-key rule is case-sensitive.  Lower-case
`api_key` / `api-key` / `apikey` key/value pairs have their value replaced
with `****`; the upper-case `API_KEY=abc123` is left unchanged. -/
theorem mask_api_key_case_sensitive :
    mask_sensitive_data "api_key=abc123" = "api_key=****" ∧
    mask_sensitive_data "api-key: abc123" = "api-key: ****" ∧
    mask_sensitive_data "apikey=\"abc123\"" = "apikey=\"****\"" ∧
    mask_sensitive_data "API_KEY=abc123" = "API_KEY=abc123" := by
  refine ⟨by decide, by decide, by decide, by decide⟩

end ProjectNameLogging

namespace ProjectNameLogging

/-! ## Claims about the correlation context (C3, C10) -/

/-- C3 (confirmed): for every `LogContext` scope and every prior context
state, immediately after the scope exits both `get_correlation_id` and
`get_request_context` return `none` — regardless of whether the body
completed normally (`Except.ok`) or raised (`Except.error`), since
`__exit__` runs on every exit path and unconditionally resets both
context variables. -/
theorem logcontext_exit_clears {ε α : Type} (lc : LogContext)
    (fresh now : String) (st : CtxState)
    (body : CtxState → CtxState × Except ε α) :
    get_correlation_id (runLogContext lc fresh now st body).1 = none ∧
    get_request_context (runLogContext lc fresh now st body).1 = none :=
  ⟨rfl, rfl⟩

/-- C10 (confirmed): nested scopes do not restore.  After entering an
outer scope (whose correlation id is then set) and running a complete
inner scope inside it, both context variables are `none`, even though the
outer scope has not exited: `__exit__` resets to absent instead of
restoring the enclosing scope's values. -/
theorem logcontext_nested_exit_clears {ε α : Type} (outer inner : LogContext)
    (freshOuter nowOuter freshInner nowInner : String) (st0 : CtxState)
    (body : CtxState → CtxState × Except ε α) :
    get_correlation_id (outer.enter freshOuter nowOuter st0) =
      some (orDefault outer.correlation_id freshOuter) ∧
    get_correlation_id
      (runLogContext inner freshInner nowInner
        (outer.enter freshOuter nowOuter st0) body).1 = none ∧
    get_request_context
      (runLogContext inner freshInner nowInner
        (outer.enter freshOuter nowOuter st0) body).1 = none :=
  ⟨rfl, rfl, rfl⟩

/-! ## Claim about the masking filter's record rewriting (C9) -/

/-- C9 (confirmed): `MaskingFilter.filter` always returns `True` (no
record is ever suppressed); it rewrites the record, replacing the message
with its masked form and each positional or dict substitution argument
with the masked form of its string representation. -/
theorem masking_filter_never_suppresses (r : FilterRecord) :
    (MaskingFilter.filter r).1 = true ∧
    (MaskingFilter.filter r).2.msg = mask_sensitive_data r.msg ∧
    (MaskingFilter.filter r).2.args =
      (match r.args with
       | .noArgs => .noArgs
       | .tup l => .tup (l.map (fun v => mask_sensitive_data v))
       | .dict d => .dict (d.map (fun kv => (kv.1, mask_sensitive_data kv.2)))) := by
  obtain ⟨msg, args⟩ := r
  have hempty : mask_sensitive_data "" = "" := by decide
  refine ⟨rfl, ?_, ?_⟩ <;>
    · by_cases hm : msg == ""
      · have hm2 : msg = "" := by simpa using hm
        subst hm2
        cases args with
        | noArgs => simp [MaskingFilter.filter, hempty]
        | tup l =>
          cases l with
          | nil => simp [MaskingFilter.filter, hempty]
          | cons a t => simp [MaskingFilter.filter, hempty]
        | dict d =>
          cases d with
          | nil => simp [MaskingFilter.filter, hempty]
          | cons a t => simp [MaskingFilter.filter, hempty]
      · cases args with
        | noArgs => simp [MaskingFilter.filter, hm]
        | tup l =>
          cases l with
          | nil => simp [MaskingFilter.filter, hm]
          | cons a t => simp [MaskingFilter.filter, hm]
        | dict d =>
          cases d with
          | nil => simp [MaskingFilter.filter, hm]
          | cons a t => simp [MaskingFilter.filter, hm]

end ProjectNameLogging

namespace ProjectNameLogging

/-! ## Lookup helper lemmas (shared) -/

/-- Helper: the identity match on an option. -/
theorem option_match_id {β : Type} (o : Option β) :
    (match o with | some v => some v | none => none) = o := by
  cases o <;> rfl

/-- Helper: `List.lookup` distributes over list append. -/
theorem lookup_append {β : Type} (k : String) (l1 l2 : List (String × β)) :
    (l1 ++ l2).lookup k =
      (match l1.lookup k with
       | some v => some v
       | none => l2.lookup k) := by
  induction l1 with
  | nil => simp [List.lookup]
  | cons kv t ih =>
    obtain ⟨k1, v1⟩ := kv
    by_cases h : (k == k1)
    · simp [List.lookup, h]
    · simp only [List.cons_append, List.lookup_cons, h]
      exact ih

/-- Helper: looking up the key of an `optStrEntry`. -/
theorem optStrEntry_lookup_self (key : String) (o : Option String)
    (f : String → JVal) :
    (optStrEntry key o f).lookup key =
      (match o with
       | some s => if s == "" then none else some (f s)
       | none => none) := by
  cases o with
  | none => rfl
  | some s => by_cases h : s == "" <;> simp [optStrEntry, h, List.lookup]

/-- Helper: an `optStrEntry` holds no other key. -/
theorem optStrEntry_lookup_ne (k key : String) (o : Option String)
    (f : String → JVal) (h : (k == key) = false) :
    (optStrEntry key o f).lookup k = none := by
  cases o with
  | none => rfl
  | some s => by_cases hs : s == "" <;> simp [optStrEntry, hs, List.lookup, h]

/-- Helper: looking up the key of an `optDictEntry`. -/
theorem optDictEntry_lookup_self (key : String)
    (o : Option (List (String × String))) :
    (optDictEntry key o).lookup key =
      (match o with
       | some d => if d.isEmpty then none else some (JVal.obj (strDictJ d))
       | none => none) := by
  cases o with
  | none => rfl
  | some d => by_cases h : d.isEmpty <;> simp [optDictEntry, h, List.lookup]

/-- Helper: an `optDictEntry` holds no other key. -/
theorem optDictEntry_lookup_ne (k key : String)
    (o : Option (List (String × String))) (h : (k == key) = false) :
    (optDictEntry key o).lookup k = none := by
  cases o with
  | none => rfl
  | some d => by_cases hd : d.isEmpty <;> simp [optDictEntry, hd, List.lookup, h]

/-- Helper: looking up the key of a `condEntry`. -/
theorem condEntry_lookup_self (b : Bool) (key : String) (v : JVal) :
    (condEntry b key v).lookup key = (if b then some v else none) := by
  cases b <;> simp [condEntry, List.lookup]

/-- Helper: a `condEntry` holds no other key. -/
theorem condEntry_lookup_ne (k : String) (b : Bool) (key : String) (v : JVal)
    (h : (k == key) = false) :
    (condEntry b key v).lookup k = none := by
  cases b <;> simp [condEntry, List.lookup, h]

/-- Helper: looking up the key of an `optEntry`. -/
theorem optEntry_lookup_self {α : Type} (key : String) (o : Option α)
    (f : α → JVal) :
    (optEntry key o f).lookup key =
      (match o with | some a => some (f a) | none => none) := by
  cases o <;> simp [optEntry, List.lookup]

/-- Helper: an `optEntry` holds no other key. -/
theorem optEntry_lookup_ne {α : Type} (k key : String) (o : Option α)
    (f : α → JVal) (h : (k == key) = false) :
    (optEntry key o f).lookup k = none := by
  cases o <;> simp [optEntry, List.lookup, h]

/-- Helper: getting a header that `setHeader` just set. -/
theorem headerGet_setHeader (hs : List (String × String)) (k v : String) :
    headerGet (setHeader hs k v) k = some v := by
  unfold headerGet setHeader
  rw [List.find?_append]
  have h1 : (hs.filter (fun kv => !(lowerStr kv.1 == lowerStr k))).find?
      (fun kv => lowerStr kv.1 == lowerStr k) = none := by
    rw [List.find?_eq_none]
    intro kv hkv
    have := List.of_mem_filter hkv
    simpa using this
  simp [h1, List.find?]

/-! ## Claim about audit-event serialization (C7) -/

/-- C7 (confirmed): `SecurityEvent.to_dict` always emits the action kind,
the severity, `event_type`, the actor object and the outcome; the
timestamp is the UTC time at the moment `to_dict` is called (the event
stores no timestamp of its own, so serialization always restamps); the
active correlation id and request-context snapshot are included exactly
when present (non-empty, per Python truthiness) at serialization time. -/
theorem security_event_to_dict_contract (ev : SecurityEvent) (now : String)
    (cid : Option String) (rctx : Option (List (String × String))) :
    (ev.to_dict now cid rctx).lookup "action" = some (.str ev.action.value) ∧
    (ev.to_dict now cid rctx).lookup "severity" = some (.str ev.severity.value) ∧
    (ev.to_dict now cid rctx).lookup "event_type" = some (.str "security_audit") ∧
    (ev.to_dict now cid rctx).lookup "timestamp" = some (.str now) ∧
    (ev.to_dict now cid rctx).lookup "actor" =
      some (.obj [("id", optJ ev.actor_id), ("type", .str ev.actor_type)]) ∧
    (ev.to_dict now cid rctx).lookup "outcome" = some (.str ev.outcome) ∧
    (ev.to_dict now cid rctx).lookup "correlation_id" =
      (match cid with
       | some c => if c == "" then none else some (JVal.str c)
       | none => none) ∧
    (ev.to_dict now cid rctx).lookup "request_context" =
      (match rctx with
       | some rc => if rc.isEmpty then none else some (JVal.obj (strDictJ rc))
       | none => none) := by
  refine ⟨?_, ?_, ?_, ?_, ?_, ?_, ?_, ?_⟩ <;>
    simp [SecurityEvent.to_dict, lookup_append, List.lookup_cons,
      optStrEntry_lookup_self, optStrEntry_lookup_ne,
      optDictEntry_lookup_self, optDictEntry_lookup_ne,
      condEntry_lookup_ne, optEntry_lookup_ne, option_match_id]

/-! ## Claim about exception formatting (C8) -/

/-- C8 (confirmed): when a record carries exception info with a non-null
exception class, the JSON object produced by `JsonFormatter.format`
contains an `exception` field whose `type` and `traceback` entries are
both non-null (`type` is the class name, `traceback` the formatted stack
trace, which `formatException` always renders as a string). -/
theorem json_formatter_exception_fields (environment now : String)
    (cid : Option String) (rctx : Option (List (String × String)))
    (record : LogRecord) (ei : ExcInfo) (t : String)
    (hexc : record.exc_info = some ei) (hty : ei.excType = some t) :
    (JsonFormatter.format environment now cid rctx record).lookup "exception" =
      some (JVal.obj
        [("type", JVal.str t),
         ("message", optJ ei.excMsg),
         ("traceback", JVal.str ei.tbText)]) ∧
    JVal.str t ≠ JVal.null ∧ JVal.str ei.tbText ≠ JVal.null := by
  refine ⟨?_, by simp, by simp⟩
  simp [JsonFormatter.format, lookup_append, List.lookup_cons, hexc, hty,
    optStrEntry_lookup_ne, optDictEntry_lookup_ne, optEntry_lookup_self,
    condEntry_lookup_ne, option_match_id, optJ]

/-- C8 witness: a concrete `ERROR` record carrying a `ValueError`. -/
theorem json_formatter_exception_fields_witness :
    ({ name := "app", levelname := "ERROR", pathname := "app.py", lineno := 3,
       funcName := "run", message := "boom",
       exc_info := some ⟨some "ValueError", some "boom", "Traceback text"⟩,
       extras := [] } : LogRecord).exc_info =
        some ⟨some "ValueError", some "boom", "Traceback text"⟩ ∧
    (⟨some "ValueError", some "boom", "Traceback text"⟩ : ExcInfo).excType =
        some "ValueError" ∧
    ((JsonFormatter.format "development" "2026-01-01T00:00:00+00:00" none none
        { name := "app", levelname := "ERROR", pathname := "app.py", lineno := 3,
          funcName := "run", message := "boom",
          exc_info := some ⟨some "ValueError", some "boom", "Traceback text"⟩,
          extras := [] }).lookup "exception" =
      some (JVal.obj
        [("type", JVal.str "ValueError"),
         ("message", JVal.str "boom"),
         ("traceback", JVal.str "Traceback text")]) ∧
      JVal.str "ValueError" ≠ JVal.null ∧ JVal.str "Traceback text" ≠ JVal.null) :=
  ⟨rfl, rfl,
   json_formatter_exception_fields "development" "2026-01-01T00:00:00+00:00"
     none none
     { name := "app", levelname := "ERROR", pathname := "app.py", lineno := 3,
       funcName := "run", message := "boom",
       exc_info := some ⟨some "ValueError", some "boom", "Traceback text"⟩,
       extras := [] }
     ⟨some "ValueError", some "boom", "Traceback text"⟩ "ValueError" rfl rfl⟩

end ProjectNameLogging

namespace ProjectNameLogging

/-! ## Claims about the request logging middleware (C4, C5, C6) -/

/-- C6 (confirmed): a request whose path starts with an excluded-path
prefix is passed straight to the downstream handler: no log record and no
audit event is emitted, the context state is untouched, and the result is
exactly what the handler returned (in particular the middleware adds no
`X-Correlation-ID` header). -/
theorem dispatch_excluded_passthrough (mw : RequestLoggingMiddleware)
    (req : Request) (fresh now : String) (dur_ms : Nat) (st0 : CtxState)
    (call_next : Request → Except Exc HttpResponse)
    (h : mw.exclude_paths.any (fun p => startswith req.path p) = true) :
    (RequestLoggingMiddleware.dispatch mw req fresh now dur_ms st0 call_next).logs = [] ∧
    (RequestLoggingMiddleware.dispatch mw req fresh now dur_ms st0 call_next).audits = [] ∧
    (RequestLoggingMiddleware.dispatch mw req fresh now dur_ms st0 call_next).ctx = st0 ∧
    (RequestLoggingMiddleware.dispatch mw req fresh now dur_ms st0 call_next).result =
      call_next req := by
  unfold RequestLoggingMiddleware.dispatch
  rw [if_pos h]
  exact ⟨rfl, rfl, rfl, rfl⟩

/-- C6 witness: a `GET /health` request against the default configuration
passes through untouched. -/
theorem dispatch_excluded_passthrough_witness :
    (({} : RequestLoggingMiddleware).exclude_paths.any
      (fun p => startswith "/health" p)) = true ∧
    ((RequestLoggingMiddleware.dispatch {} ⟨"GET", "/health", "", [], none, none, none⟩
        "cid-1" "t0" 5 ⟨some "keep", none⟩
        (fun _ => .ok ⟨200, []⟩)).logs = [] ∧
     (RequestLoggingMiddleware.dispatch {} ⟨"GET", "/health", "", [], none, none, none⟩
        "cid-1" "t0" 5 ⟨some "keep", none⟩
        (fun _ => .ok ⟨200, []⟩)).audits = [] ∧
     (RequestLoggingMiddleware.dispatch {} ⟨"GET", "/health", "", [], none, none, none⟩
        "cid-1" "t0" 5 ⟨some "keep", none⟩
        (fun _ => .ok ⟨200, []⟩)).ctx = ⟨some "keep", none⟩ ∧
     (RequestLoggingMiddleware.dispatch {} ⟨"GET", "/health", "", [], none, none, none⟩
        "cid-1" "t0" 5 ⟨some "keep", none⟩
        (fun _ => .ok ⟨200, []⟩)).result = .ok ⟨200, []⟩) :=
  ⟨by decide,
   dispatch_excluded_passthrough {} ⟨"GET", "/health", "", [], none, none, none⟩
     "cid-1" "t0" 5 ⟨some "keep", none⟩ (fun _ => .ok ⟨200, []⟩) (by decide)⟩

/-- C4 (confirmed): when the downstream handler of a non-excluded request
raises, `dispatch` emits exactly one audit `SecurityEvent` with
`action = API_ERROR`, actor id the resolved user id, the client ip and
user agent attached, `details` naming the exception's type and message,
and metadata holding method, path and error type — and the result is the
very same exception re-raised (never swallowed or replaced). -/
theorem dispatch_error_audit_and_reraise (mw : RequestLoggingMiddleware)
    (req : Request) (fresh now : String) (dur_ms : Nat) (st0 : CtxState)
    (call_next : Request → Except Exc HttpResponse) (exc : Exc)
    (hpath : mw.exclude_paths.any (fun p => startswith req.path p) = false)
    (hcall : call_next req = .error exc) :
    (RequestLoggingMiddleware.dispatch mw req fresh now dur_ms st0 call_next).audits =
      [{ action := .API_ERROR,
         actor_id := RequestLoggingMiddleware.get_user_id req,
         ip_address := some (RequestLoggingMiddleware.get_client_ip req),
         user_agent := some ((headerGet req.headers "user-agent").getD ""),
         details := some ("Request error: " ++ exc.tyName ++ ": " ++ exc.msg),
         metadata := [("method", req.method), ("path", req.path),
                      ("error_type", exc.tyName)] }] ∧
    (RequestLoggingMiddleware.dispatch mw req fresh now dur_ms st0 call_next).result =
      .error exc := by
  unfold RequestLoggingMiddleware.dispatch
  rw [if_neg (by simp [hpath])]
  simp [runLogContext, hcall, RequestLoggingMiddleware.log_error]

/-- C4 witness: a `GET /api/items` request whose handler raises
`ValueError("boom")`. -/
theorem dispatch_error_audit_and_reraise_witness :
    (({} : RequestLoggingMiddleware).exclude_paths.any
      (fun p => startswith "/api/items" p)) = false ∧
    ((fun (_ : Request) => (.error ⟨"ValueError", "boom"⟩ : Except Exc HttpResponse))
        ⟨"GET", "/api/items", "", [], none, none, none⟩ =
      .error ⟨"ValueError", "boom"⟩) ∧
    ((RequestLoggingMiddleware.dispatch {}
        ⟨"GET", "/api/items", "", [], none, none, none⟩ "cid-1" "t0" 5 ⟨none, none⟩
        (fun _ => .error ⟨"ValueError", "boom"⟩)).audits =
      [{ action := .API_ERROR,
         actor_id := none,
         ip_address := some "unknown",
         user_agent := some "",
         details := some "Request error: ValueError: boom",
         metadata := [("method", "GET"), ("path", "/api/items"),
                      ("error_type", "ValueError")] }] ∧
     (RequestLoggingMiddleware.dispatch {}
        ⟨"GET", "/api/items", "", [], none, none, none⟩ "cid-1" "t0" 5 ⟨none, none⟩
        (fun _ => .error ⟨"ValueError", "boom"⟩)).result =
      .error ⟨"ValueError", "boom"⟩) :=
  ⟨by decide, rfl,
   dispatch_error_audit_and_reraise {}
     ⟨"GET", "/api/items", "", [], none, none, none⟩ "cid-1" "t0" 5 ⟨none, none⟩
     (fun _ => .error ⟨"ValueError", "boom"⟩) ⟨"ValueError", "boom"⟩
     (by decide) rfl⟩

/-- C5 (confirmed): when the downstream handler of a non-excluded request
returns a response, the "request completed" record (the last log emitted)
is at `error` level for status ≥ 500, `warning` for 400–499 and `info`
otherwise, its `response` dict contains the resolved correlation id, and
the returned response carries that correlation id in its
`X-Correlation-ID` header. -/
theorem dispatch_completed_level_and_header (mw : RequestLoggingMiddleware)
    (req : Request) (fresh now : String) (dur_ms : Nat) (st0 : CtxState)
    (call_next : Request → Except Exc HttpResponse) (resp : HttpResponse)
    (hpath : mw.exclude_paths.any (fun p => startswith req.path p) = false)
    (hcall : call_next req = .ok resp) :
    (RequestLoggingMiddleware.dispatch mw req fresh now dur_ms st0 call_next).logs.getLast? =
      some ⟨(if 500 ≤ resp.status then .error
             else if 400 ≤ resp.status then .warning else .info),
            (if 500 ≤ resp.status then "Request completed with server error"
             else if 400 ≤ resp.status then "Request completed with client error"
             else "Request completed"),
            [("response", .obj (RequestLoggingMiddleware.response_log req resp dur_ms
                (RequestLoggingMiddleware.get_client_ip req)
                (RequestLoggingMiddleware.get_user_id req)
                (RequestLoggingMiddleware.get_correlation_id req fresh))),
             ("event_type", .str "http_response")],
            false⟩ ∧
    (RequestLoggingMiddleware.response_log req resp dur_ms
        (RequestLoggingMiddleware.get_client_ip req)
        (RequestLoggingMiddleware.get_user_id req)
        (RequestLoggingMiddleware.get_correlation_id req fresh)).lookup "correlation_id" =
      some (.str (RequestLoggingMiddleware.get_correlation_id req fresh)) ∧
    (RequestLoggingMiddleware.dispatch mw req fresh now dur_ms st0 call_next).result =
      .ok { resp with
            headers := setHeader resp.headers "X-Correlation-ID"
              (RequestLoggingMiddleware.get_correlation_id req fresh) } ∧
    headerGet (setHeader resp.headers "X-Correlation-ID"
        (RequestLoggingMiddleware.get_correlation_id req fresh)) "X-Correlation-ID" =
      some (RequestLoggingMiddleware.get_correlation_id req fresh) := by
  refine ⟨?_, ?_, ?_, headerGet_setHeader resp.headers "X-Correlation-ID" _⟩
  · unfold RequestLoggingMiddleware.dispatch
    rw [if_neg (by simp [hpath])]
    simp only [runLogContext, hcall]
    by_cases h5 : 500 ≤ resp.status
    · simp [h5]
    · by_cases h4 : 400 ≤ resp.status <;> simp [h5, h4]
  · simp [RequestLoggingMiddleware.response_log, List.lookup_cons]
  · unfold RequestLoggingMiddleware.dispatch
    rw [if_neg (by simp [hpath])]
    simp [runLogContext, hcall]

/-- C5 witness: a 404 response to `GET /api/items` with an inbound
`X-Correlation-ID: abc` header is logged at warning level with
correlation id `abc`, and the response header carries `abc`. -/
theorem dispatch_completed_level_and_header_witness :
    (({} : RequestLoggingMiddleware).exclude_paths.any
      (fun p => startswith "/api/items" p)) = false ∧
    ((fun (_ : Request) => (.ok ⟨404, []⟩ : Except Exc HttpResponse))
        ⟨"GET", "/api/items", "", [("x-correlation-id", "abc")], none, none, none⟩ =
      .ok ⟨404, []⟩) ∧
    ((RequestLoggingMiddleware.dispatch {}
        ⟨"GET", "/api/items", "", [("x-correlation-id", "abc")], none, none, none⟩
        "cid-1" "t0" 5 ⟨none, none⟩ (fun _ => .ok ⟨404, []⟩)).logs.getLast? =
      some ⟨.warning, "Request completed with client error",
            [("response", .obj
               [("method", .str "GET"),
                ("path", .str "/api/items"),
                ("status_code", .num 404),
                ("duration_ms", .num 5),
                ("ip_address", .str "unknown"),
                ("user_id", JVal.null),
                ("correlation_id", .str "abc")]),
             ("event_type", .str "http_response")],
            false⟩ ∧
     ([("method", JVal.str "GET"),
       ("path", JVal.str "/api/items"),
       ("status_code", JVal.num 404),
       ("duration_ms", JVal.num 5),
       ("ip_address", JVal.str "unknown"),
       ("user_id", JVal.null),
       ("correlation_id", JVal.str "abc")] : List (String × JVal)).lookup
         "correlation_id" = some (.str "abc") ∧
     (RequestLoggingMiddleware.dispatch {}
        ⟨"GET", "/api/items", "", [("x-correlation-id", "abc")], none, none, none⟩
        "cid-1" "t0" 5 ⟨none, none⟩ (fun _ => .ok ⟨404, []⟩)).result =
      .ok ⟨404, [("X-Correlation-ID", "abc")]⟩ ∧
     headerGet [("X-Correlation-ID", "abc")] "X-Correlation-ID" = some "abc") :=
  ⟨by decide, rfl,
   dispatch_completed_level_and_header {}
     ⟨"GET", "/api/items", "", [("x-correlation-id", "abc")], none, none, none⟩
     "cid-1" "t0" 5 ⟨none, none⟩ (fun _ => .ok ⟨404, []⟩) ⟨404, []⟩
     (by decide) rfl⟩

end ProjectNameLogging
